import Mathlib

/-!
Shallow embedding of `DimensionHandler.py`, the dimension-derivation engine of a
rocker-bogie rover suspension generator, together with theorems checking its
natural-language specification.

Modelling conventions:
* The parameter table `params` (name → value) is modelled as a total function
  `Params := String → ℝ`: every theorem quantifying over `p : Params` covers
  every table containing the referenced names.
* A Python dict of dimension entries (`name -> (value, unit)`) is modelled as
  an insertion-ordered association list `DimMap`.  `findVal` is dict lookup
  (`m[k]` without the fatal-error case), `getVal m k` is `m[k][0]`.
* Functions that subscript a dict received as an argument (and would raise
  `KeyError` in Python on a missing key) return `Option` and are written in the
  option monad, so the fatal lookup is `none`.
* `math.atan2 y x` is `Complex.arg (x + y*I)`: both return the angle of the
  point `(x, y)` in `(-π, π]`, with `atan2 0 0 = 0 = Complex.arg 0`.
* The `print` diagnostics of the shaft updaters are modelled as separate
  definitions (`upper_shaft_min_bolt_length`, `lower_shaft_min_bolt_length`).
-/

abbrev Entry : Type := ℝ × Option String

abbrev DimMap : Type := List (String × Entry)

abbrev Params : Type := String → ℝ

/-- Python dict lookup `m[k]` on an insertion-ordered association list,
returning `none` where Python raises `KeyError`. -/
def findVal : DimMap → String → Option Entry
  | [], _ => none
  | (k, v) :: rest, key => if key = k then some v else findVal rest key

/-- Python `m[k][0]`: the numeric value stored under key `k`. -/
def getVal (m : DimMap) (k : String) : Option ℝ :=
  (findVal m k).map Prod.fst

/-- Python `dict` assignment `m[k] = v`: replaces the value in place when the
key is present (keeping its position), appends the pair at the end otherwise. -/
def dictInsert : DimMap → String → Entry → DimMap
  | [], k, v => [(k, v)]
  | (k', v') :: rest, k, v =>
      if k' = k then (k', v) :: rest else (k', v') :: dictInsert rest k v

/-- Source `BOLT_SPACING_FACTOR = 0.5` -/
def BOLT_SPACING_FACTOR : ℝ := 0.5

/-- Source `STEERING_MOUNT_FILLET_RADIUS_FACTOR = 0.25` -/
def STEERING_MOUNT_FILLET_RADIUS_FACTOR : ℝ := 0.25

/-- Source `validate_rover_width`: the pass/fail condition (a `Prop` here, Python's
`<=` on floats) together with the required frame-to-wheel clearance. -/
def validate_rover_width (p : Params) : Prop × ℝ :=
  let target_frame_to_wheel_width := (p "rover_width" - p "frame_width") / 2
  let frame_to_wheel_width :=
    p "upper_shaft_frame_clearance" +
    p "swingarm_thickness" +
    2 * p "linkage_thickness" +
    2 * p "middle_wheel_clearance" +
    p "upper_shaft_overhang" +
    p "middle_wheel_shaft_length" +
    p "wheel_thickness"
  (frame_to_wheel_width ≤ target_frame_to_wheel_width, frame_to_wheel_width)

/-- Source `get_pivot_housing_diameter(prefix)`: takes `"upper_"` or `"lower_"` pivot
prefix and returns the housing diameter. -/
def get_pivot_housing_diameter (p : Params) (pfx : String) : ℝ :=
  p (pfx ++ "bearing_diameter") +
    2 * (p "pivot_housing_bolt_diameter" + 2 * p "pivot_housing_min_wall_thickness")

/-- Source `math.atan2 y x`, i.e. the argument of the complex point `x + y*I`. -/
noncomputable def atan2 (y x : ℝ) : ℝ :=
  Complex.arg ⟨x, y⟩

/-- Source `math.degrees` -/
noncomputable def degrees (x : ℝ) : ℝ :=
  x * (180 / Real.pi)

/-- Source `math.radians` -/
noncomputable def radians (x : ℝ) : ℝ :=
  x * (Real.pi / 180)

/-- Source `get_linkage_angle_and_extended_length(height, width)`: returns the linkage
angle (in degrees) and the extended length. -/
noncomputable def get_linkage_angle_and_extended_length (height width : ℝ) : ℝ × ℝ :=
  (degrees (atan2 height width), Real.sqrt (height ^ 2 + width ^ 2))

/-- Source `get_linkage_map(length, angle)`: constructs the linkage map. -/
def get_linkage_map (p : Params) (length angle : ℝ) : DimMap :=
  [("linkage_thickness", (p "linkage_thickness", some "mm")),
   ("width", (p "linkage_width", some "mm")),
   ("wall_thickness", (p "linkage_wall_thickness", some "mm")),
   ("length", (length, some "mm")),
   ("angle", (angle, none)),
   ("bolt_diameter", (p "linkage_mount_bolt_diameter", some "mm")),
   ("bolt_spacing", (BOLT_SPACING_FACTOR * p "linkage_mount_bolt_diameter", some "mm"))]

/-- Source `get_shaft_map(prefix)`: constructs the partial shaft map. -/
def get_shaft_map (p : Params) (pfx : String) : DimMap :=
  [("shaft_diameter", (p (pfx ++ "shaft_diameter"), some "mm")),
   ("ret_ring_inner_diameter", (p (pfx ++ "ret_ring_inner_diameter"), some "mm")),
   ("ret_ring_thickness", (p (pfx ++ "ret_ring_thickness"), some "mm"))]

/-- Source `append_map(key_list, src, dest)`: appends to `dest` the key-value pairs
of `src` whose keys are listed in `key_list` and present in `src`
(`dest.update({key: src[key] for key in key_list if key in src})`). -/
def append_map (key_list : List String) (src dest : DimMap) : DimMap :=
  key_list.foldl
    (fun d k =>
      match findVal src k with
      | some v => dictInsert d k v
      | none => d)
    dest

/-- Source `update_front_rocker_linkage()`: returns the offset in addition to the
linkage map. -/
noncomputable def update_front_rocker_linkage (p : Params) : DimMap × ℝ :=
  let height := (p "ground_clearance" + 0.5 * p "frame_height") -
    (p "corner_wheel_asm_height" + p "steering_asm_height" +
      p "front_steering_mount_neck_height")
  let width := 0.5 * (p "rover_length" - p "wheel_diameter")
  let al := get_linkage_angle_and_extended_length height width
  let angle := al.1
  let extended_length := al.2
  let alpha_rad := radians ((angle + 90) / 2)
  let upper_pivot_housing_radius := get_pivot_housing_diameter p "upper_" / 2
  let offset := p "linkage_width" / (2 * Real.tan alpha_rad)
  let length := extended_length -
    (upper_pivot_housing_radius + 2 * p "linkage_mount_base_length" + offset)
  (get_linkage_map p length angle, offset)

/-- Source `update_rear_rocker_linkage()` -/
noncomputable def update_rear_rocker_linkage (p : Params) : DimMap :=
  let height := (p "ground_clearance" + 0.5 * p "frame_height") -
    (p "corner_wheel_asm_height" + p "steering_asm_height" +
      p "rear_steering_mount_neck_height" + p "linkage_width" / 2)
  let width := p "rover_length" / 4
  let al := get_linkage_angle_and_extended_length height width
  let angle := al.1
  let extended_length := al.2
  let upper_pivot_housing_radius := get_pivot_housing_diameter p "upper_" / 2
  let lower_pivot_housing_radius := get_pivot_housing_diameter p "lower_" / 2
  let length := extended_length -
    (upper_pivot_housing_radius + lower_pivot_housing_radius +
      2 * p "linkage_mount_base_length")
  get_linkage_map p length angle

/-- Source `update_middle_bogie_linkage()` -/
noncomputable def update_middle_bogie_linkage (p : Params) : DimMap :=
  let height := p "corner_wheel_asm_height" + p "steering_asm_height" +
    p "rear_steering_mount_neck_height" + p "linkage_width" / 2 -
    p "wheel_diameter" / 2
  let width := p "rover_length" / 4
  let al := get_linkage_angle_and_extended_length height width
  let angle := al.1
  let extended_length := al.2
  let lower_pivot_housing_radius := get_pivot_housing_diameter p "lower_" / 2
  let length := extended_length -
    (lower_pivot_housing_radius + p "middle_wheel_shaft_diameter" / 2 +
      2 * p "linkage_mount_base_length")
  get_linkage_map p length angle

/-- Source `update_rear_bogie_linkage()` -/
noncomputable def update_rear_bogie_linkage (p : Params) : DimMap :=
  let width := p "rover_length" / 4
  let lower_pivot_housing_radius := get_pivot_housing_diameter p "lower_" / 2
  let length := width -
    (lower_pivot_housing_radius + p "wheel_diameter" / 2 + p "linkage_width" / 2 +
      2.5 * p "linkage_mount_base_length")
  get_linkage_map p length 0

/-- Source `update_pivot_housing(prefix, interior_angle_1, interior_angle_2)`.
The source builds the dict with `None` placeholders for
`bolt_placement_radius`, `linkage_mount_bolt_spacing` and
`linkage_mount_tongue_length` and assigns them immediately afterwards from
fields already present in the dict; since assignment to an existing key keeps
its position, the resulting map is built here directly, with the self-lookups
(`pivot_housing["bearing_diameter"][0]` …) mirrored by `let` bindings. -/
noncomputable def update_pivot_housing (p : Params) (pfx : String)
    (interior_angle_1 interior_angle_2 : ℝ) : DimMap :=
  let bearing_diameter := p (pfx ++ "bearing_diameter")
  let housing_min_wall_thickness := p "pivot_housing_min_wall_thickness"
  let housing_bolt_diameter := p "pivot_housing_bolt_diameter"
  let linkage_mount_bolt_diameter := p "linkage_mount_bolt_diameter"
  let bolt_placement_radius :=
    bearing_diameter / 2 + housing_min_wall_thickness + housing_bolt_diameter / 2
  let linkage_mount_bolt_spacing := BOLT_SPACING_FACTOR * linkage_mount_bolt_diameter
  -- "Only accounts for 2 bolts" (source comment)
  let linkage_mount_tongue_length :=
    3 * linkage_mount_bolt_spacing + 2 * linkage_mount_bolt_diameter
  [("housing_diameter", (get_pivot_housing_diameter p pfx, some "mm")),
   ("housing_thickness", (p "linkage_thickness", some "mm")),
   ("bearing_diameter", (bearing_diameter, some "mm")),
   ("bearing_outer_race_inner_diameter",
     (p (pfx ++ "bearing_outer_race_inner_diameter"), some "mm")),
   ("bearing_thickness", (p (pfx ++ "bearing_thickness"), some "mm")),
   ("housing_min_wall_thickness", (housing_min_wall_thickness, some "mm")),
   ("housing_bolt_diameter", (housing_bolt_diameter, some "mm")),
   ("linkage_separation_angle", (180 - (interior_angle_1 + interior_angle_2), none)),
   ("bolt_placement_radius", (bolt_placement_radius, some "mm")),
   ("num_bolts", (p (pfx ++ "pivot_housing_num_bolts"), none)),
   ("linkage_mount_base_width", (p "linkage_width", some "mm")),
   ("linkage_mount_base_length", (p "linkage_mount_base_length", some "mm")),
   ("linkage_mount_shoulder_depth", (p "linkage_wall_thickness", some "mm")),
   ("linkage_mount_bolt_diameter", (linkage_mount_bolt_diameter, some "mm")),
   ("linkage_mount_bolt_spacing", (linkage_mount_bolt_spacing, some "mm")),
   ("linkage_mount_tongue_length", (linkage_mount_tongue_length, some "mm"))]

/-- Source `update_spacer(prefix, pivot_housing)`: takes the respective pivot-housing
map; `none` models the fatal `KeyError` of a missing subscript. -/
def update_spacer (p : Params) (pfx : String) (pivot_housing : DimMap) :
    Option DimMap := do
  let housing_diameter ← getVal pivot_housing "housing_diameter"
  let bearing_diameter ← getVal pivot_housing "bearing_diameter"
  let housing_bolt_diameter ← getVal pivot_housing "housing_bolt_diameter"
  let bolt_placement_radius ← getVal pivot_housing "bolt_placement_radius"
  let thickness :=
    if pfx = "upper_" then p "middle_wheel_clearance"
    else p "upper_shaft_overhang" + p "middle_wheel_clearance" +
      p "middle_wheel_shaft_overhang"
  some
    [("outer_diameter", (housing_diameter, some "mm")),
     ("inner_diameter", (bearing_diameter, some "mm")),
     ("spacer_thickness", (thickness, some "mm")),
     ("bolt_diameter", (housing_bolt_diameter, some "mm")),
     ("bolt_placement_radius", (bolt_placement_radius, some "mm")),
     ("num_bolts", (p (pfx ++ "pivot_housing_num_bolts"), none))]

/-- Source `update_upper_shaft(upper_spacer_thickness)`: the returned shaft map. -/
def update_upper_shaft (p : Params) (upper_spacer_thickness : ℝ) : DimMap :=
  let ret_ring_1_pos := p "upper_shaft_frame_clearance" + p "swingarm_thickness"
  let ret_ring_2_pos :=
    ret_ring_1_pos + 2 * p "linkage_thickness" + upper_spacer_thickness
  let ref_length := ret_ring_2_pos + p "upper_shaft_overhang"
  let length := 2 * ref_length + p "frame_width"
  get_shaft_map p "upper_" ++
    [("ret_ring_1_pos", (ret_ring_1_pos, some "mm")),
     ("ret_ring_2_pos", (ret_ring_2_pos, some "mm")),
     ("ref_length", (ref_length, some "mm")),
     ("length", (length, some "mm"))]

/-- The `Min upper bolt length` value printed (not stored) by
`update_upper_shaft`. -/
def upper_shaft_min_bolt_length (p : Params) (upper_spacer_thickness : ℝ) : ℝ :=
  let ret_ring_1_pos := p "upper_shaft_frame_clearance" + p "swingarm_thickness"
  let ret_ring_2_pos :=
    ret_ring_1_pos + 2 * p "linkage_thickness" + upper_spacer_thickness
  ret_ring_2_pos - p "upper_shaft_frame_clearance"

/-- Source `update_lower_shaft(upper_spacer_thickness, lower_spacer_thickness)`:
the returned shaft map. -/
def update_lower_shaft (p : Params)
    (upper_spacer_thickness lower_spacer_thickness : ℝ) : DimMap :=
  let ret_ring_1_pos := p "lower_shaft_overhang"
  let ret_ring_2_pos := ret_ring_1_pos + p "linkage_thickness"
  let ret_ring_3_pos := ret_ring_2_pos + upper_spacer_thickness
  let ret_ring_4_pos :=
    ret_ring_3_pos + 2 * p "linkage_thickness" + lower_spacer_thickness
  let length := ret_ring_4_pos + p "lower_shaft_overhang"
  get_shaft_map p "lower_" ++
    [("ret_ring_1_pos", (ret_ring_1_pos, some "mm")),
     ("ret_ring_2_pos", (ret_ring_2_pos, some "mm")),
     ("ret_ring_3_pos", (ret_ring_3_pos, some "mm")),
     ("ret_ring_4_pos", (ret_ring_4_pos, some "mm")),
     ("length", (length, some "mm"))]

/-- The `Min lower bolt length` value printed (not stored) by
`update_lower_shaft`. -/
def lower_shaft_min_bolt_length (p : Params)
    (upper_spacer_thickness lower_spacer_thickness : ℝ) : ℝ :=
  let ret_ring_1_pos := p "lower_shaft_overhang"
  let ret_ring_2_pos := ret_ring_1_pos + p "linkage_thickness"
  let ret_ring_3_pos := ret_ring_2_pos + upper_spacer_thickness
  let ret_ring_4_pos :=
    ret_ring_3_pos + 2 * p "linkage_thickness" + lower_spacer_thickness
  ret_ring_4_pos - ret_ring_3_pos

/-- Source `update_steering_mount(prefix, offset, angle, pivot_housing)`.
`fillet_radius` is assigned after the dict literal, hence appended last;
the source reads it from `steering_mount["neck_height"][0]`, mirrored by the
`neck_height` binding. -/
def update_steering_mount (p : Params) (pfx : String) (offset angle : ℝ)
    (pivot_housing : DimMap) : Option DimMap := do
  let tongue ← getVal pivot_housing "linkage_mount_tongue_length"
  let neck_height := p (pfx ++ "steering_mount_neck_height")
  let steering_mount : DimMap :=
    [("neck_height", (neck_height, some "mm")),
     ("arm_length", (p "linkage_mount_base_length" + tongue + offset, some "mm")),
     ("angle", (angle, none)),
     ("width", (p "linkage_width", some "mm")),
     ("mount_thickness", (p "linkage_thickness", some "mm")),
     ("fillet_radius", (STEERING_MOUNT_FILLET_RADIUS_FACTOR * neck_height, some "mm"))]
  let key_list := ["linkage_mount_tongue_length", "linkage_mount_shoulder_depth",
    "linkage_mount_bolt_diameter", "linkage_mount_bolt_spacing"]
  some (append_map key_list pivot_housing steering_mount)

/-- Source `update_middle_wheel_mount(pivot_housing)`: assembled purely from the
parameter table with units (`params_with_units`) and the pivot-housing map. -/
def update_middle_wheel_mount (params_with_units : DimMap)
    (pivot_housing : DimMap) : DimMap :=
  let params_key_list := ["middle_wheel_shaft_diameter", "middle_wheel_shaft_length",
    "middle_wheel_shaft_overhang", "wheel_diameter", "wheel_thickness",
    "linkage_thickness", "linkage_width"]
  let pivot_key_list := ["linkage_mount_base_length", "linkage_mount_tongue_length",
    "linkage_mount_shoulder_depth", "linkage_mount_bolt_diameter",
    "linkage_mount_bolt_spacing"]
  append_map pivot_key_list pivot_housing
    (append_map params_key_list params_with_units [])

/-- Source `main()`: the sequence of `(file name, map)` pairs handed to
`FileHandler.map_to_text_file`, in call order; each update function writes its
map to `<component>.txt` at the point of its call.  `none` models a fatal
lookup failure anywhere in the pipeline. -/
noncomputable def main_writes (p : Params) (params_with_units : DimMap) :
    Option (List (String × DimMap)) := do
  let fr := update_front_rocker_linkage p
  let front_rocker_linkage := fr.1
  let offset := fr.2
  let rear_rocker_linkage := update_rear_rocker_linkage p
  let middle_bogie_linkage := update_middle_bogie_linkage p
  let rear_bogie_linkage := update_rear_bogie_linkage p
  let front_rocker_angle ← getVal front_rocker_linkage "angle"
  let rear_rocker_angle ← getVal rear_rocker_linkage "angle"
  let middle_bogie_angle ← getVal middle_bogie_linkage "angle"
  let rear_bogie_angle ← getVal rear_bogie_linkage "angle"
  let upper_pivot_housing :=
    update_pivot_housing p "upper_" front_rocker_angle rear_rocker_angle
  let lower_pivot_housing :=
    update_pivot_housing p "lower_" middle_bogie_angle rear_bogie_angle
  let upper_spacer ← update_spacer p "upper_" upper_pivot_housing
  let lower_spacer ← update_spacer p "lower_" lower_pivot_housing
  let upper_spacer_thickness ← getVal upper_spacer "spacer_thickness"
  let lower_spacer_thickness ← getVal lower_spacer "spacer_thickness"
  let upper_shaft := update_upper_shaft p upper_spacer_thickness
  let lower_shaft := update_lower_shaft p upper_spacer_thickness lower_spacer_thickness
  let front_steering_mount ←
    update_steering_mount p "front_" offset front_rocker_angle upper_pivot_housing
  let rear_steering_mount ←
    update_steering_mount p "rear_" 0 0 lower_pivot_housing
  let middle_wheel_mount :=
    update_middle_wheel_mount params_with_units lower_pivot_housing
  some
    [("front_rocker_linkage.txt", front_rocker_linkage),
     ("rear_rocker_linkage.txt", rear_rocker_linkage),
     ("middle_bogie_linkage.txt", middle_bogie_linkage),
     ("rear_bogie_linkage.txt", rear_bogie_linkage),
     ("upper_pivot_housing.txt", upper_pivot_housing),
     ("lower_pivot_housing.txt", lower_pivot_housing),
     ("upper_spacer.txt", upper_spacer),
     ("lower_spacer.txt", lower_spacer),
     ("upper_shaft.txt", upper_shaft),
     ("lower_shaft.txt", lower_shaft),
     ("front_steering_mount.txt", front_steering_mount),
     ("rear_steering_mount.txt", rear_steering_mount),
     ("middle_wheel_mount.txt", middle_wheel_mount)]

/-- C1: `validate_rover_width` returns a pair `(passed, required_clearance)`
where `required_clearance` is the sum of the seven listed terms and `passed`
holds iff `required_clearance ≤ (rover_width − frame_width)/2`. -/
theorem validate_rover_width_spec (p : Params) :
    (validate_rover_width p).2 =
      p "upper_shaft_frame_clearance" + p "swingarm_thickness" +
        2 * p "linkage_thickness" + 2 * p "middle_wheel_clearance" +
        p "upper_shaft_overhang" + p "middle_wheel_shaft_length" +
        p "wheel_thickness" ∧
    ((validate_rover_width p).1 ↔
      (validate_rover_width p).2 ≤ (p "rover_width" - p "frame_width") / 2) := by
  exact ⟨rfl, Iff.rfl⟩

/-- C2: for both prefixes, the `housing_diameter` stored in the pivot-housing
map equals `bearing_diameter + 2*(bolt_diameter + 2*min_wall_thickness)`. -/
theorem pivot_housing_diameter_spec (p : Params) (a₁ a₂ b₁ b₂ : ℝ) :
    getVal (update_pivot_housing p "upper_" a₁ a₂) "housing_diameter" =
      some (p "upper_bearing_diameter" +
        2 * (p "pivot_housing_bolt_diameter" +
          2 * p "pivot_housing_min_wall_thickness")) ∧
    getVal (update_pivot_housing p "lower_" b₁ b₂) "housing_diameter" =
      some (p "lower_bearing_diameter" +
        2 * (p "pivot_housing_bolt_diameter" +
          2 * p "pivot_housing_min_wall_thickness")) := by
  exact ⟨rfl, rfl⟩

/-- C7: `get_linkage_angle_and_extended_length(h, w)` is a pure function of
its two arguments returning `degrees(atan2(h, w))` and
`sqrt(h^2 + w^2)`, and the extended length dominates `max |h| |w|`. -/
theorem get_linkage_angle_and_extended_length_spec (h w : ℝ) :
    (get_linkage_angle_and_extended_length h w).1 = degrees (atan2 h w) ∧
    (get_linkage_angle_and_extended_length h w).2 = Real.sqrt (h ^ 2 + w ^ 2) ∧
    max |h| |w| ≤ (get_linkage_angle_and_extended_length h w).2 := by
  refine ⟨rfl, rfl, max_le ?_ ?_⟩
  · rw [show (get_linkage_angle_and_extended_length h w).2 =
      Real.sqrt (h ^ 2 + w ^ 2) from rfl, ← Real.sqrt_sq_eq_abs]
    exact Real.sqrt_le_sqrt (by nlinarith [sq_nonneg w])
  · rw [show (get_linkage_angle_and_extended_length h w).2 =
      Real.sqrt (h ^ 2 + w ^ 2) from rfl, ← Real.sqrt_sq_eq_abs]
    exact Real.sqrt_le_sqrt (by nlinarith [sq_nonneg h])

/-- C5: the upper-shaft map satisfies the ring-position, reference-length and
total-length formulas; the printed `min_bolt_length` diagnostic equals
`ret_ring_2_pos - upper_shaft_frame_clearance` and is not a field of the
returned map. -/
theorem update_upper_shaft_spec (p : Params) (upper_spacer_thickness : ℝ) :
    getVal (update_upper_shaft p upper_spacer_thickness) "ret_ring_1_pos" =
      some (p "upper_shaft_frame_clearance" + p "swingarm_thickness") ∧
    getVal (update_upper_shaft p upper_spacer_thickness) "ret_ring_2_pos" =
      some ((p "upper_shaft_frame_clearance" + p "swingarm_thickness") +
        2 * p "linkage_thickness" + upper_spacer_thickness) ∧
    getVal (update_upper_shaft p upper_spacer_thickness) "ref_length" =
      some (((p "upper_shaft_frame_clearance" + p "swingarm_thickness") +
        2 * p "linkage_thickness" + upper_spacer_thickness) +
        p "upper_shaft_overhang") ∧
    getVal (update_upper_shaft p upper_spacer_thickness) "length" =
      some (2 * (((p "upper_shaft_frame_clearance" + p "swingarm_thickness") +
        2 * p "linkage_thickness" + upper_spacer_thickness) +
        p "upper_shaft_overhang") + p "frame_width") ∧
    upper_shaft_min_bolt_length p upper_spacer_thickness =
      ((p "upper_shaft_frame_clearance" + p "swingarm_thickness") +
        2 * p "linkage_thickness" + upper_spacer_thickness) -
        p "upper_shaft_frame_clearance" ∧
    findVal (update_upper_shaft p upper_spacer_thickness) "min_bolt_length" =
      none := by
  exact ⟨rfl, rfl, rfl, rfl, rfl, rfl⟩

/-- C6: bolt spacing is `0.5 * linkage_mount_bolt_diameter` in linkage maps
and both pivot-housing maps, and the tongue length of both housing variants is
`3 * bolt_spacing + 2 * bolt_diameter` (hence `3.5 * bolt_diameter`),
whatever the value of `num_bolts` in the parameter table. -/
theorem bolt_spacing_tongue_spec (p : Params) (length angle a₁ a₂ b₁ b₂ : ℝ) :
    getVal (get_linkage_map p length angle) "bolt_spacing" =
      some (0.5 * p "linkage_mount_bolt_diameter") ∧
    getVal (update_pivot_housing p "upper_" a₁ a₂) "linkage_mount_bolt_spacing" =
      some (0.5 * p "linkage_mount_bolt_diameter") ∧
    getVal (update_pivot_housing p "lower_" b₁ b₂) "linkage_mount_bolt_spacing" =
      some (0.5 * p "linkage_mount_bolt_diameter") ∧
    getVal (update_pivot_housing p "upper_" a₁ a₂) "linkage_mount_tongue_length" =
      some (3 * (0.5 * p "linkage_mount_bolt_diameter") +
        2 * p "linkage_mount_bolt_diameter") ∧
    getVal (update_pivot_housing p "lower_" b₁ b₂) "linkage_mount_tongue_length" =
      some (3.5 * p "linkage_mount_bolt_diameter") := by
  refine ⟨rfl, rfl, rfl, rfl, ?_⟩
  rw [show getVal (update_pivot_housing p "lower_" b₁ b₂)
      "linkage_mount_tongue_length" =
    some (3 * (BOLT_SPACING_FACTOR * p "linkage_mount_bolt_diameter") +
      2 * p "linkage_mount_bolt_diameter") from rfl]
  unfold BOLT_SPACING_FACTOR
  norm_num
  ring

/-- C3 (amended): the middle-bogie linkage's usable length equals the extended
length minus the lower pivot housing radius, half the middle-wheel shaft
diameter, and twice the linkage mount base length. -/
theorem middle_bogie_length_amended (p : Params) :
    getVal (update_middle_bogie_linkage p) "length" =
      some (Real.sqrt ((p "corner_wheel_asm_height" + p "steering_asm_height" +
          p "rear_steering_mount_neck_height" + p "linkage_width" / 2 -
          p "wheel_diameter" / 2) ^ 2 + (p "rover_length" / 4) ^ 2) -
        (get_pivot_housing_diameter p "lower_" / 2 +
          p "middle_wheel_shaft_diameter" / 2 +
          2 * p "linkage_mount_base_length")) := rfl

/-- Lookup after a Python dict assignment: the assigned key reads back the new
value, every other key is unchanged. -/
theorem findVal_dictInsert (m : DimMap) (k : String) (v : Entry) (k' : String) :
    findVal (dictInsert m k v) k' = if k' = k then some v else findVal m k' := by
  induction m with
  | nil => simp [dictInsert, findVal]
  | cons hd tl ih =>
      obtain ⟨k₀, v₀⟩ := hd
      by_cases h₀ : k₀ = k
      · subst h₀
        by_cases h' : k' = k₀ <;> simp [dictInsert, findVal, h']
      · by_cases h' : k' = k₀ <;>
          simp [dictInsert, findVal, h₀, h', ih]

/-- Unfolding `append_map` over the head of the key list. -/
theorem append_map_cons (k₀ : String) (ks : List String) (src dest : DimMap) :
    append_map (k₀ :: ks) src dest =
      append_map ks src
        (match findVal src k₀ with
         | some v => dictInsert dest k₀ v
         | none => dest) := rfl

/-- Lookup characterisation of `append_map`: a key that is listed and present
in the source reads the source value; every other key reads the destination. -/
theorem findVal_append_map (key_list : List String) (src dest : DimMap) (k : String) :
    findVal (append_map key_list src dest) k =
      if k ∈ key_list ∧ (findVal src k).isSome then findVal src k
      else findVal dest k := by
  induction key_list generalizing dest with
  | nil => simp [append_map]
  | cons k₀ ks ih =>
      rw [append_map_cons, ih]
      by_cases hk : k = k₀
      · subst hk
        cases hsrc : findVal src k with
        | none => simp [hsrc]
        | some v =>
            by_cases hmem : k ∈ ks <;>
              simp [hsrc, hmem, findVal_dictInsert]
      · cases hsrc : findVal src k₀ with
        | none => simp [hsrc, hk]
        | some v => simp [hsrc, hk, findVal_dictInsert]

/-- C9: `append_map` never fails: for every key list, source and destination,
it copies exactly the listed keys present in the source, leaves every other
destination entry unchanged, and silently skips listed keys absent from the
source. -/
theorem append_map_spec (key_list : List String) (src dest : DimMap) (k : String) :
    findVal (append_map key_list src dest) k =
      if k ∈ key_list ∧ (findVal src k).isSome then findVal src k
      else findVal dest k :=
  findVal_append_map key_list src dest k

/-- C4: spacer thickness branches exactly on the prefix — `middle_wheel_clearance`
for `"upper_"`, the three-term sum otherwise — while `outer_diameter` and
`inner_diameter` are copied from the housing's `housing_diameter` and
`bearing_diameter`. -/
theorem update_spacer_spec (p : Params) (pfx : String) (pivot_housing : DimMap)
    (od bd hbd bpr : ℝ)
    (h₁ : getVal pivot_housing "housing_diameter" = some od)
    (h₂ : getVal pivot_housing "bearing_diameter" = some bd)
    (h₃ : getVal pivot_housing "housing_bolt_diameter" = some hbd)
    (h₄ : getVal pivot_housing "bolt_placement_radius" = some bpr) :
    ∃ m, update_spacer p pfx pivot_housing = some m ∧
      getVal m "spacer_thickness" =
        some (if pfx = "upper_" then p "middle_wheel_clearance"
          else p "upper_shaft_overhang" + p "middle_wheel_clearance" +
            p "middle_wheel_shaft_overhang") ∧
      getVal m "outer_diameter" = some od ∧
      getVal m "inner_diameter" = some bd := by
  refine ⟨[("outer_diameter", (od, some "mm")),
    ("inner_diameter", (bd, some "mm")),
    ("spacer_thickness",
      (if pfx = "upper_" then p "middle_wheel_clearance"
        else p "upper_shaft_overhang" + p "middle_wheel_clearance" +
          p "middle_wheel_shaft_overhang", some "mm")),
    ("bolt_diameter", (hbd, some "mm")),
    ("bolt_placement_radius", (bpr, some "mm")),
    ("num_bolts", (p (pfx ++ "pivot_housing_num_bolts"), none))], ?_, rfl, rfl, rfl⟩
  rw [update_spacer, h₁, h₂, h₃, h₄]
  rfl

/-- A concrete pivot-housing map exercising `update_spacer_spec`. -/
def spacer_housing_example : DimMap :=
  [("housing_diameter", (10, some "mm")),
   ("bearing_diameter", (4, some "mm")),
   ("housing_bolt_diameter", (1, some "mm")),
   ("bolt_placement_radius", (3, some "mm"))]

/-- Witness for C4 at a concrete parameter table and housing map. -/
theorem update_spacer_spec_witness :
    ∃ m, update_spacer (fun _ => 1) "upper_" spacer_housing_example = some m ∧
      getVal m "spacer_thickness" =
        some (if ("upper_" : String) = "upper_" then (1 : ℝ) else 1 + 1 + 1) ∧
      getVal m "outer_diameter" = some 10 ∧
      getVal m "inner_diameter" = some 4 :=
  update_spacer_spec (fun _ => 1) "upper_" spacer_housing_example 10 4 1 3
    rfl rfl rfl rfl

/-- C10: the rear steering mount is built with offset and angle both 0: its
angle field is exactly 0 and its arm length is the mount base length plus the
lower housing's tongue length, with no offset term. -/
theorem rear_steering_mount_spec (p : Params) (a₁ a₂ tongue : ℝ)
    (h : getVal (update_pivot_housing p "lower_" a₁ a₂)
      "linkage_mount_tongue_length" = some tongue) :
    ∃ m, update_steering_mount p "rear_" 0 0
        (update_pivot_housing p "lower_" a₁ a₂) = some m ∧
      getVal m "angle" = some 0 ∧
      getVal m "arm_length" = some (p "linkage_mount_base_length" + tongue) := by
  have hF : 3 * (BOLT_SPACING_FACTOR * p "linkage_mount_bolt_diameter") +
      2 * p "linkage_mount_bolt_diameter" = tongue := Option.some.inj h
  subst hF
  refine ⟨_, rfl, rfl, ?_⟩
  show some (p "linkage_mount_base_length" +
      (3 * (BOLT_SPACING_FACTOR * p "linkage_mount_bolt_diameter") +
        2 * p "linkage_mount_bolt_diameter") + 0) = _
  norm_num

/-- Witness for C10 at a concrete parameter table. -/
theorem rear_steering_mount_spec_witness :
    ∃ m, update_steering_mount (fun _ => 2) "rear_" 0 0
        (update_pivot_housing (fun _ => 2) "lower_" 0 0) = some m ∧
      getVal m "angle" = some 0 ∧
      getVal m "arm_length" = some (2 + 7) :=
  rear_steering_mount_spec (fun _ => 2) 0 0 7
    (by show (some (3 * (BOLT_SPACING_FACTOR * (2:ℝ)) + 2 * 2) : Option ℝ) = some 7
        rw [BOLT_SPACING_FACTOR]
        norm_num)

/-- C8 counterexample: at a concrete parameter table, a single run persists
thirteen artifacts, not twelve. -/
theorem main_writes_counterexample :
    (main_writes (fun _ => 0) []).map List.length = some 13 ∧ (13 : ℕ) ≠ 12 :=
  ⟨rfl, by decide⟩

/-- C8 (amended): a single run persists exactly thirteen named artifacts, one
per component — four linkages, two pivot housings, two spacers, two shafts and
three mounts — each under its fixed per-component name. -/
theorem main_writes_amended (p : Params) (params_with_units : DimMap) :
    (main_writes p params_with_units).map (List.map Prod.fst) =
      some ["front_rocker_linkage.txt", "rear_rocker_linkage.txt",
        "middle_bogie_linkage.txt", "rear_bogie_linkage.txt",
        "upper_pivot_housing.txt", "lower_pivot_housing.txt",
        "upper_spacer.txt", "lower_spacer.txt", "upper_shaft.txt",
        "lower_shaft.txt", "front_steering_mount.txt",
        "rear_steering_mount.txt", "middle_wheel_mount.txt"] := rfl

/-- Concrete parameter table refuting C3: with these values the middle-bogie
height is 3, the width 4 (extended length 5), the lower housing radius and
mount base length 0, and the middle-wheel shaft radius 1. -/
def middle_bogie_params : Params := fun name =>
  if name = "corner_wheel_asm_height" then 3
  else if name = "rover_length" then 16
  else if name = "middle_wheel_shaft_diameter" then 2
  else 0

/-- C3 counterexample: the stored middle-bogie length is 4, while the
extended length minus only the lower housing radius and twice the mount base
length is 5 — the code also subtracts half the middle-wheel shaft diameter. -/
theorem middle_bogie_length_counterexample :
    getVal (update_middle_bogie_linkage middle_bogie_params) "length" = some 4 ∧
    Real.sqrt ((middle_bogie_params "corner_wheel_asm_height" +
        middle_bogie_params "steering_asm_height" +
        middle_bogie_params "rear_steering_mount_neck_height" +
        middle_bogie_params "linkage_width" / 2 -
        middle_bogie_params "wheel_diameter" / 2) ^ 2 +
      (middle_bogie_params "rover_length" / 4) ^ 2) -
      (get_pivot_housing_diameter middle_bogie_params "lower_" / 2 +
        2 * middle_bogie_params "linkage_mount_base_length") = 5 ∧
    (4 : ℝ) ≠ 5 := by
  have ha : middle_bogie_params "corner_wheel_asm_height" = 3 := rfl
  have hb : middle_bogie_params "steering_asm_height" = 0 := rfl
  have hc : middle_bogie_params "rear_steering_mount_neck_height" = 0 := rfl
  have hd : middle_bogie_params "linkage_width" = 0 := rfl
  have he : middle_bogie_params "wheel_diameter" = 0 := rfl
  have hf : middle_bogie_params "rover_length" = 16 := rfl
  have hg : middle_bogie_params "middle_wheel_shaft_diameter" = 2 := rfl
  have hi : middle_bogie_params "linkage_mount_base_length" = 0 := rfl
  have hj : middle_bogie_params ("lower_" ++ "bearing_diameter") = 0 := rfl
  have hk : middle_bogie_params "pivot_housing_bolt_diameter" = 0 := rfl
  have hl : middle_bogie_params "pivot_housing_min_wall_thickness" = 0 := rfl
  have h₁ : middle_bogie_params "corner_wheel_asm_height" +
      middle_bogie_params "steering_asm_height" +
      middle_bogie_params "rear_steering_mount_neck_height" +
      middle_bogie_params "linkage_width" / 2 -
      middle_bogie_params "wheel_diameter" / 2 = 3 := by
    rw [ha, hb, hc, hd, he]; norm_num
  have h₂ : middle_bogie_params "rover_length" / 4 = 4 := by
    rw [hf]; norm_num
  have h₃ : get_pivot_housing_diameter middle_bogie_params "lower_" = 0 := by
    rw [get_pivot_housing_diameter, hj, hk, hl]; norm_num
  have hsqrt : Real.sqrt ((3 : ℝ) ^ 2 + 4 ^ 2) = 5 := by
    rw [show (3 : ℝ) ^ 2 + 4 ^ 2 = 5 ^ 2 by norm_num,
      Real.sqrt_sq (by norm_num : (0 : ℝ) ≤ 5)]
  refine ⟨?_, ?_, by norm_num⟩
  · rw [show getVal (update_middle_bogie_linkage middle_bogie_params) "length" =
        some (Real.sqrt ((middle_bogie_params "corner_wheel_asm_height" +
            middle_bogie_params "steering_asm_height" +
            middle_bogie_params "rear_steering_mount_neck_height" +
            middle_bogie_params "linkage_width" / 2 -
            middle_bogie_params "wheel_diameter" / 2) ^ 2 +
          (middle_bogie_params "rover_length" / 4) ^ 2) -
          (get_pivot_housing_diameter middle_bogie_params "lower_" / 2 +
            middle_bogie_params "middle_wheel_shaft_diameter" / 2 +
            2 * middle_bogie_params "linkage_mount_base_length")) from rfl,
      h₁, h₂, h₃, hg, hi, hsqrt]
    norm_num
  · rw [h₁, h₂, h₃, hi, hsqrt]
    norm_num
